import Mathlib

/-!
Verification of the OLED_Stats scrolling/paging renderer.

Shallow embedding of the two Python scripts:
  * `stats.py` — static IP line plus three scrolling lines, reset-based scroll
    (`draw_scrolling_text`), metrics fetched once per outer 1 s cycle with ten
    0.1 s animation frames per fetch.
  * `statsAndmonitor.py` — two display modes toggled every 30 s, infinite
    seamless scroll (`draw_scrolling_text_infinite`), metrics fetched on every
    loop iteration.

Python integers are modelled as `Int`; Python `%` with a positive modulus
agrees with `Int.emod`.  Text pixel widths come from the Text Measurement
Service (PIL `textsize`/`textbbox`) and are passed as explicit parameters.
Drawing is modelled as the list of draw instructions (position and text)
emitted into the frame buffer.
-/

namespace OLED

/-- Display width in pixels (`WIDTH = 128` in both scripts). -/
def WIDTH : Int := 128

/-- Display height in pixels (`HEIGHT = 64`). -/
def HEIGHT : Int := 64

/-- Gap in pixels between repeated copies of the text during infinite scroll
(`spacing = 20` in `draw_scrolling_text_infinite`). -/
def spacing : Int := 20

/-- Seconds per display mode (`MODE_DURATION = 30` in `statsAndmonitor.py`). -/
def MODE_DURATION : Int := 30

/-- One `draw.text((x, y), text, ...)` call: a text placed at pixel position
`(x, y)` in the frame buffer. -/
structure DrawInstr where
  x : Int
  y : Int
  text : String
deriving Repr, DecidableEq

/-- Embedding of `draw_scrolling_text_infinite(y, text, offset)` from
`statsAndmonitor.py` (lines 103-121).  `text_width` is the measured pixel
width of `text`.  Returns the emitted draw instructions and the updated
offset. -/
def draw_scrolling_text_infinite (y : Int) (text : String) (text_width : Int)
    (offset : Int) : List DrawInstr × Int :=
  if text_width ≤ WIDTH then
    ([⟨0, y, text⟩], 0)
  else
    let total_length := text_width + spacing
    let effective_offset := offset % total_length
    let instrs :=
      if text_width - effective_offset < WIDTH then
        [⟨-effective_offset, y, text⟩,
         ⟨text_width - effective_offset + spacing, y, text⟩]
      else
        [⟨-effective_offset, y, text⟩]
    (instrs, offset + 2)

/-- Embedding of `draw_scrolling_text(y, text, offset)` from `stats.py`
(lines 67-91): the reset-based scrolling variant. -/
def draw_scrolling_text (y : Int) (text : String) (text_width : Int)
    (offset : Int) : List DrawInstr × Int :=
  if text_width ≤ WIDTH then
    ([⟨0, y, text⟩], 0)
  else
    let offset2 := if offset > text_width - WIDTH then 0 else offset
    ([⟨-offset2, y, text⟩], offset2 + 2)

/-- Offset obtained by iterating `draw_scrolling_text_infinite` `n` times
starting from `offset` (the per-tick advance of one line's scroll state). -/
def iterate_offset (y : Int) (text : String) (text_width : Int) (offset : Int) :
    Nat → Int
  | 0 => offset
  | n + 1 =>
      (draw_scrolling_text_infinite y text text_width
        (iterate_offset y text text_width offset n)).2

/-- A pixel column `x` is covered by an instruction list when some emitted
copy of a text of width `w` spans it. -/
def covered (instrs : List DrawInstr) (w x : Int) : Bool :=
  instrs.any (fun i => decide (i.x ≤ x) && decide (x < i.x + w))

/-- Metrics snapshot: the dictionary built by `fetch_metrics` in
`statsAndmonitor.py` (keys `IP`, `CPU`, `Temp`, `Mem`, `Disk`). -/
structure Metrics where
  IP : String
  CPU : String
  Temp : String
  Mem : String
  Disk : String
deriving Repr, DecidableEq

/-- Embedding of `fetch_metrics()` from `statsAndmonitor.py` (lines 77-101).
Each shell probe is modelled as an `Option String` (`some v` when
`subprocess.check_output` succeeds with stripped output `v`, `none` when it
raises); the `try/except` blocks substitute the placeholder `N/A` per field
independently. -/
def fetch_metrics (pIP pCPU pTemp pMem pDisk : Option String) : Metrics :=
  ⟨pIP.getD "N/A", pCPU.getD "N/A", pTemp.getD "N/A", pMem.getD "N/A",
   pDisk.getD "N/A"⟩

/-- Embedding of the `CPU` assignment in the `stats.py` main loop
(lines 114-119): on probe failure the prefixed placeholder is used. -/
def stats_CPU (pCPU : Option String) : String := pCPU.getD "CPU: N/A"

/-- Composed first scrolling line of `stats.py` (line 143):
`cpu_text = CPU + " | " + Temp`. -/
def stats_cpu_text (pCPU pTemp : Option String) : String :=
  stats_CPU pCPU ++ " | " ++ pTemp.getD "Temp: N/A"

/-- Scrolling-mode line 1 text of `statsAndmonitor.py` (line 137). -/
def cpu_line (m : Metrics) : String := "CPU: " ++ m.CPU ++ " | Temp: " ++ m.Temp

/-- Scrolling-mode line 2 text of `statsAndmonitor.py` (line 139). -/
def mem_line (m : Metrics) : String := "Mem: " ++ m.Mem

/-- Scrolling-mode line 3 text of `statsAndmonitor.py` (line 140). -/
def disk_line (m : Metrics) : String := "Disk: " ++ m.Disk

/-- Embedding of `display_scrolling_mode(metrics, offsets)` from
`statsAndmonitor.py` (lines 123-143).  `wCPU`, `wMem`, `wDisk` are the
measured pixel widths of the three composed lines.  Returns the frame's draw
instructions and the updated `(CPU, Mem, Disk)` offsets. -/
def display_scrolling_mode (m : Metrics) (wCPU wMem wDisk : Int)
    (oCPU oMem oDisk : Int) : List DrawInstr × (Int × Int × Int) :=
  let rCPU := draw_scrolling_text_infinite 16 (cpu_line m) wCPU oCPU
  let rMem := draw_scrolling_text_infinite 32 (mem_line m) wMem oMem
  let rDisk := draw_scrolling_text_infinite 48 (disk_line m) wDisk oDisk
  (⟨0, 0, "IP: " ++ m.IP⟩ :: (rCPU.1 ++ rMem.1 ++ rDisk.1),
   (rCPU.2, rMem.2, rDisk.2))

/-- Embedding of `display_icon_mode(metrics)` from `statsAndmonitor.py`
(lines 145-182): a fixed icon layout; it reads the metrics but touches no
scroll offset. -/
def display_icon_mode (m : Metrics) : List DrawInstr :=
  [⟨0, 0, String.singleton (Char.ofNat 62609)⟩, ⟨18, 0, m.Temp⟩,
   ⟨70, 0, String.singleton (Char.ofNat 62776)⟩, ⟨90, 0, m.Mem⟩,
   ⟨0, 18, String.singleton (Char.ofNat 63426)⟩, ⟨18, 18, m.Disk⟩,
   ⟨70, 18, String.singleton (Char.ofNat 62171)⟩, ⟨90, 18, m.CPU⟩,
   ⟨0, 36, String.singleton (Char.ofNat 61931)⟩, ⟨18, 36, m.IP⟩]

/-- Mode-toggle step at the top of the `statsAndmonitor.py` main loop
(lines 194-196): when `now - mode_start_time >= MODE_DURATION` the mode
toggles (`current_mode = 1 - current_mode`) and the timer is reset to the
current time.  Wall-clock times are modelled as integer seconds. -/
def mode_update (current_mode mode_start_time now : Int) : Int × Int :=
  if now - mode_start_time ≥ MODE_DURATION then (1 - current_mode, now)
  else (current_mode, mode_start_time)

/-- Mutable state carried across iterations of the `statsAndmonitor.py` main
loop: the display mode, the mode timer, the three scroll offsets, and (for
the temporal claims) a count of `fetch_metrics` invocations. -/
structure SAMState where
  current_mode : Int
  mode_start_time : Int
  offCPU : Int
  offMem : Int
  offDisk : Int
  fetches : Nat
deriving Repr, DecidableEq

/-- Per-iteration inputs of the `statsAndmonitor.py` main loop: the current
wall-clock time, the five probe outcomes, and the measured widths of the three
composed scrolling lines. -/
structure TickInput where
  now : Int
  pIP : Option String
  pCPU : Option String
  pTemp : Option String
  pMem : Option String
  pDisk : Option String
  wCPU : Int
  wMem : Int
  wDisk : Int

/-- Initial state of the `statsAndmonitor.py` main loop (lines 188-190):
`offsets = 0`, `current_mode = 0`, `mode_start_time = time.time()`. -/
def init_state (t0 : Int) : SAMState := ⟨0, t0, 0, 0, 0, 0⟩

/-- One iteration of the `statsAndmonitor.py` main loop (lines 192-208):
toggle the mode if due, fetch metrics unconditionally, then render either the
scrolling frame (updating the offsets) or the icon frame (offsets untouched).
Returns the new state and the frame submitted to the display. -/
def loop_iter (s : SAMState) (inp : TickInput) : SAMState × List DrawInstr :=
  let mm := mode_update s.current_mode s.mode_start_time inp.now
  let m := fetch_metrics inp.pIP inp.pCPU inp.pTemp inp.pMem inp.pDisk
  if mm.1 = 0 then
    let r := display_scrolling_mode m inp.wCPU inp.wMem inp.wDisk
      s.offCPU s.offMem s.offDisk
    (⟨mm.1, mm.2, r.2.1, r.2.2.1, r.2.2.2, s.fetches + 1⟩, r.1)
  else
    (⟨mm.1, mm.2, s.offCPU, s.offMem, s.offDisk, s.fetches + 1⟩,
     display_icon_mode m)

/-- The main loop run over a finite trace of tick inputs (each tick renders
exactly one frame). -/
def run_loop (s : SAMState) : List TickInput → SAMState
  | [] => s
  | i :: is => run_loop (loop_iter s i).1 is

/-! ### Helper lemmas about the infinite-scroll routine -/

/-- Unfolding of the wide-text branch of `draw_scrolling_text_infinite`. -/
theorem dsti_wide (y : Int) (text : String) (tw off : Int) (h : WIDTH < tw) :
    draw_scrolling_text_infinite y text tw off =
      (if tw - off % (tw + spacing) < WIDTH then
        [⟨-(off % (tw + spacing)), y, text⟩,
         ⟨tw - off % (tw + spacing) + spacing, y, text⟩]
      else
        [⟨-(off % (tw + spacing)), y, text⟩], off + 2) := by
  rw [draw_scrolling_text_infinite, if_neg (by omega)]

theorem emod_bounds (off tw : Int) (h : WIDTH < tw) :
    0 ≤ off % (tw + spacing) ∧ off % (tw + spacing) < tw + spacing := by
  have hpos : (0 : Int) < tw + spacing := by
    simp only [WIDTH, spacing] at h ⊢; omega
  exact ⟨Int.emod_nonneg off (by omega), Int.emod_lt_of_pos off hpos⟩

/-- C1.  For every call of the scrolling advance operation
(`draw_scrolling_text_infinite`) with `text_width > WIDTH` and `offset ≥ 0`,
the effective draw offset equals `offset % (text_width + spacing)`, lies in
`[0, text_width + spacing)`, and the first copy of the text is drawn at
horizontal position `-effective_offset`. -/
theorem C1_effective_offset_wraparound (y : Int) (text : String)
    (tw off : Int) (hw : WIDTH < tw) (hoff : 0 ≤ off) :
    (draw_scrolling_text_infinite y text tw off).1.head? =
        some ⟨-(off % (tw + spacing)), y, text⟩ ∧
      0 ≤ off % (tw + spacing) ∧ off % (tw + spacing) < tw + spacing := by
  obtain ⟨h1, h2⟩ := emod_bounds off tw hw
  refine ⟨?_, h1, h2⟩
  rw [dsti_wide y text tw off hw]
  by_cases hc : tw - off % (tw + spacing) < WIDTH
  · simp [hc]
  · simp [hc]

/-- Witness for C1 at `text_width = 200`, `offset = 450` (spacing 20, so the
effective offset is `450 % 220 = 10`). -/
theorem C1_effective_offset_wraparound_witness :
    (draw_scrolling_text_infinite 16 "T" 200 450).1.head? =
        some ⟨-(450 % (200 + spacing)), 16, "T"⟩ ∧
      0 ≤ (450 : Int) % (200 + spacing) ∧
      (450 : Int) % (200 + spacing) < 200 + spacing :=
  C1_effective_offset_wraparound 16 "T" 200 450 (by decide) (by decide)

/-- C2 counterexample.  At `text_width = 200`, `offset = 100` the seam
condition holds (`200 - 100 < 128`) and two copies are drawn, yet viewport
column `110` lies in the 20-pixel spacing gap between the two copies and is
covered by neither: the two copies do NOT cover the full viewport width. -/
theorem C2_coverage_counterexample :
    WIDTH < 200 ∧
    (200 : Int) - 100 % (200 + spacing) < WIDTH ∧
    (draw_scrolling_text_infinite 16 "T" 200 100).1.length = 2 ∧
    (0 : Int) ≤ 110 ∧ (110 : Int) < WIDTH ∧
    covered (draw_scrolling_text_infinite 16 "T" 200 100).1 200 110 = false := by
  decide

/-- C2 amended.  With `text_width > WIDTH`, a second copy is drawn exactly
when `text_width - effective_offset < WIDTH`, at horizontal position
`text_width - effective_offset + spacing`; the copies cover every viewport
column except those in the deliberate `spacing`-pixel gap
`[text_width - effective_offset, text_width - effective_offset + spacing)`
between consecutive copies. -/
theorem C2_seam_second_copy (y : Int) (text : String) (tw off : Int)
    (hw : WIDTH < tw) :
    ((tw - off % (tw + spacing) < WIDTH →
        (draw_scrolling_text_infinite y text tw off).1 =
          [⟨-(off % (tw + spacing)), y, text⟩,
           ⟨tw - off % (tw + spacing) + spacing, y, text⟩]) ∧
      (WIDTH ≤ tw - off % (tw + spacing) →
        (draw_scrolling_text_infinite y text tw off).1 =
          [⟨-(off % (tw + spacing)), y, text⟩])) ∧
    ∀ x : Int, 0 ≤ x → x < WIDTH →
      covered (draw_scrolling_text_infinite y text tw off).1 tw x = true ∨
        (tw - off % (tw + spacing) ≤ x ∧
          x < tw - off % (tw + spacing) + spacing) := by
  obtain ⟨h1, h2⟩ := emod_bounds off tw hw
  rw [dsti_wide y text tw off hw]
  by_cases hc : tw - off % (tw + spacing) < WIDTH
  · refine ⟨⟨fun _ => by simp [hc], fun hge => absurd hge (not_le.mpr hc)⟩, ?_⟩
    intro x hx1 hx2
    simp only [if_pos hc, covered, List.any_cons, List.any_nil,
      Bool.or_eq_true, Bool.and_eq_true, decide_eq_true_eq, Bool.or_false]
    simp only [WIDTH, spacing] at hw h1 h2 hc hx2 ⊢
    omega
  · refine ⟨⟨fun hlt => absurd hlt hc, fun _ => by simp [hc]⟩, ?_⟩
    intro x hx1 hx2
    simp only [if_neg hc, covered, List.any_cons, List.any_nil,
      Bool.or_eq_true, Bool.and_eq_true, decide_eq_true_eq, Bool.or_false]
    simp only [WIDTH, spacing] at hw h1 h2 hc hx2 ⊢
    omega

/-- Witness for C2 amended at `text_width = 200`, `offset = 100` (second copy
at `200 - 100 + 20 = 120`; column `50` is covered by the first copy). -/
theorem C2_seam_second_copy_witness :
    (draw_scrolling_text_infinite 16 "T" 200 100).1 =
      [⟨-(100 % (200 + spacing)), 16, "T"⟩,
       ⟨200 - 100 % (200 + spacing) + spacing, 16, "T"⟩] ∧
    (covered (draw_scrolling_text_infinite 16 "T" 200 100).1 200 50 = true ∨
      ((200 : Int) - 100 % (200 + spacing) ≤ 50 ∧
        (50 : Int) < 200 - 100 % (200 + spacing) + spacing)) :=
  ⟨(C2_seam_second_copy 16 "T" 200 100 (by decide)).1.1 (by decide),
   (C2_seam_second_copy 16 "T" 200 100 (by decide)).2 50 (by decide) (by decide)⟩

/-- C3.  When the measured text width fits the viewport
(`text_width ≤ WIDTH`), both scrolling routines draw exactly one copy at
horizontal position `0` and return `next_offset = 0`, regardless of the
incoming offset — so repeated calls with the same short text keep the offset
at `0` with a single draw instruction and no drift. -/
theorem C3_fits_viewport_resets (y : Int) (text : String) (tw off : Int)
    (h : tw ≤ WIDTH) :
    draw_scrolling_text_infinite y text tw off = ([⟨0, y, text⟩], 0) ∧
    draw_scrolling_text y text tw off = ([⟨0, y, text⟩], 0) := by
  constructor
  · rw [draw_scrolling_text_infinite, if_pos h]
  · rw [draw_scrolling_text, if_pos h]

/-- Witness for C3 at `text_width = 100 ≤ 128` and a nonzero offset `57`. -/
theorem C3_fits_viewport_resets_witness :
    draw_scrolling_text_infinite 16 "T" 100 57 = ([⟨0, 16, "T"⟩], 0) ∧
    draw_scrolling_text 16 "T" 100 57 = ([⟨0, 16, "T"⟩], 0) :=
  C3_fits_viewport_resets 16 "T" 100 57 (by decide)

/-- Stepping the infinite-scroll routine always adds exactly 2 to the offset
when the text is wider than the viewport. -/
theorem dsti_step (y : Int) (text : String) (tw off : Int) (hw : WIDTH < tw) :
    (draw_scrolling_text_infinite y text tw off).2 = off + 2 := by
  rw [dsti_wide y text tw off hw]

theorem iterate_offset_eq (y : Int) (text : String) (tw off : Int)
    (hw : WIDTH < tw) :
    ∀ n : Nat, iterate_offset y text tw off n = off + 2 * n
  | 0 => by simp [iterate_offset]
  | n + 1 => by
      rw [iterate_offset, dsti_step y text tw _ hw,
        iterate_offset_eq y text tw off hw n]
      push_cast
      ring

/-- C4.  For every call with `text_width > WIDTH` the infinite-scroll routine
returns `next_offset = offset + 2` (fixed step of 2 pixels per tick); no
reset is ever applied, so after `n` ticks the offset is `offset + 2·n`,
growing without bound. -/
theorem C4_fixed_step_unbounded (y : Int) (text : String) (tw off : Int)
    (hw : WIDTH < tw) :
    (draw_scrolling_text_infinite y text tw off).2 = off + 2 ∧
    ∀ n : Nat, iterate_offset y text tw off n = off + 2 * n :=
  ⟨dsti_step y text tw off hw, iterate_offset_eq y text tw off hw⟩

/-- Witness for C4 at `text_width = 200`, `offset = 440` and `n = 3`. -/
theorem C4_fixed_step_unbounded_witness :
    (draw_scrolling_text_infinite 16 "T" 200 440).2 = 440 + 2 ∧
    iterate_offset 16 "T" 200 440 3 = 440 + 2 * 3 :=
  ⟨(C4_fixed_step_unbounded 16 "T" 200 440 (by decide)).1,
   (C4_fixed_step_unbounded 16 "T" 200 440 (by decide)).2 3⟩

/-- C5 counterexample.  With the code's `step = 2` and `spacing = 20`, take
`text_width = 129 > 128` and starting offset `0`: the cycle length is `149`,
`ceil(149 / 2) = 75`, but after 75 ticks the offset is `150` and the
effective offset is `150 % 149 = 1 ≠ 0`: the cycle does NOT repeat after
`ceil((text_width + spacing) / step)` ticks. -/
theorem C5_period_counterexample :
    WIDTH < 129 ∧
    ((129 + spacing + 2 - 1) / 2 : Int) = 75 ∧
    iterate_offset 16 "T" 129 0 75 % (129 + spacing) ≠
      (0 : Int) % (129 + spacing) := by
  refine ⟨by decide, by decide, ?_⟩
  rw [iterate_offset_eq 16 "T" 129 0 (by decide) 75]
  decide

/-- C5 amended.  When the fixed step 2 divides `text_width + spacing`,
iterating the advance operation `(text_width + spacing) / 2`
(= `ceil((text_width + spacing) / 2)`) times returns the effective offset
exactly to its starting value, for every starting offset. -/
theorem C5_period_when_step_divides (y : Int) (text : String) (tw off : Int)
    (hw : WIDTH < tw) (n : Nat) (hn : (n : Int) * 2 = tw + spacing) :
    iterate_offset y text tw off n % (tw + spacing) = off % (tw + spacing) := by
  rw [iterate_offset_eq y text tw off hw n]
  have h : off + 2 * (n : Int) = off + (tw + spacing) * 1 := by omega
  rw [h, Int.add_mul_emod_self_left]

/-- Witness for C5 amended at `text_width = 130`, `offset = 7`, `n = 75`
(cycle length `150 = 75 * 2`). -/
theorem C5_period_when_step_divides_witness :
    iterate_offset 16 "T" 130 7 75 % (130 + spacing) = 7 % (130 + spacing) :=
  C5_period_when_step_divides 16 "T" 130 7 (by decide) 75 (by decide)

/-- C6.  Code evaluated at the claim's failing situation: every iteration of
the `statsAndmonitor.py` main loop — hence every rendered animation frame,
including every 0.1 s scrolling-mode frame — invokes `fetch_metrics` exactly
once, and over a trace of `n` ticks the Metrics Provider is invoked `n`
times.  There is no metrics refresh timer: the fetch cadence equals the
frame cadence, contradicting the claim (and the script's own comment that
`LOOPTIME = 1.0` is the metric update interval). -/
theorem C6_fetch_on_every_frame :
    (∀ (s : SAMState) (inp : TickInput),
      (loop_iter s inp).1.fetches = s.fetches + 1) ∧
    ∀ (s : SAMState) (l : List TickInput),
      (run_loop s l).fetches = s.fetches + l.length := by
  have hone : ∀ (s : SAMState) (inp : TickInput),
      (loop_iter s inp).1.fetches = s.fetches + 1 := by
    intro s inp
    rw [loop_iter]
    by_cases h : (mode_update s.current_mode s.mode_start_time inp.now).1 = 0
    · simp [h]
    · simp [h]
  refine ⟨hone, ?_⟩
  intro s l
  induction l generalizing s with
  | nil => rfl
  | cons i is ih =>
      rw [run_loop, ih ((loop_iter s i).1), hone s i, List.length_cons]
      omega

/-- C7.  Whenever the elapsed time since the last switch reaches
`MODE_DURATION = 30` the mode advances to `(current + 1) % 2` (the toggle
`1 - current_mode` for modes 0/1) and the timer is reset to the switch time;
below the threshold nothing changes; the initial mode is 0; and inside the
loop body the mode and its timer change only through `mode_update`. -/
theorem C7_page_switch_toggle (m ms now t0 : Int) (hm : m = 0 ∨ m = 1) :
    (MODE_DURATION ≤ now - ms → mode_update m ms now = ((m + 1) % 2, now)) ∧
    (now - ms < MODE_DURATION → mode_update m ms now = (m, ms)) ∧
    (init_state t0).current_mode = 0 ∧
    ∀ (s : SAMState) (inp : TickInput),
      (loop_iter s inp).1.current_mode =
          (mode_update s.current_mode s.mode_start_time inp.now).1 ∧
        (loop_iter s inp).1.mode_start_time =
          (mode_update s.current_mode s.mode_start_time inp.now).2 := by
  refine ⟨?_, ?_, rfl, ?_⟩
  · intro h
    rw [mode_update, if_pos (by omega)]
    rcases hm with rfl | rfl <;> norm_num
  · intro h
    rw [mode_update, if_neg (by omega)]
  · intro s inp
    rw [loop_iter]
    by_cases h : (mode_update s.current_mode s.mode_start_time inp.now).1 = 0
    · simp [h]
    · simp [h]

/-- Witness for C7: at mode 1 with 31 s elapsed the mode toggles to
`(1 + 1) % 2 = 0` and the timer resets to 31; at mode 0 with 10 s elapsed
nothing changes; the initial mode is 0. -/
theorem C7_page_switch_toggle_witness :
    mode_update 1 0 31 = ((1 + 1) % 2, 31) ∧
    mode_update 0 0 10 = (0, 0) ∧
    (init_state 5).current_mode = 0 :=
  ⟨(C7_page_switch_toggle 1 0 31 5 (Or.inr rfl)).1 (by decide),
   (C7_page_switch_toggle 0 0 10 5 (Or.inl rfl)).2.1 (by decide),
   (C7_page_switch_toggle 0 0 10 5 (Or.inl rfl)).2.2.1⟩

/-- C8.  On any tick whose (post-toggle) mode is the icon page, the loop
renders the icon frame and leaves every per-line scroll offset exactly as it
was: switching pages never resets a line's scroll offset, so the scroll
resumes where it left off when the scrolling page becomes active again. -/
theorem C8_icon_mode_preserves_offsets (s : SAMState) (inp : TickInput)
    (h : (mode_update s.current_mode s.mode_start_time inp.now).1 = 1) :
    (loop_iter s inp).1.offCPU = s.offCPU ∧
    (loop_iter s inp).1.offMem = s.offMem ∧
    (loop_iter s inp).1.offDisk = s.offDisk ∧
    (loop_iter s inp).2 =
      display_icon_mode
        (fetch_metrics inp.pIP inp.pCPU inp.pTemp inp.pMem inp.pDisk) := by
  have h0 : ¬ (mode_update s.current_mode s.mode_start_time inp.now).1 = 0 := by
    rw [h]; decide
  rw [loop_iter]
  simp [h0]

/-- Witness for C8: icon mode active (mode 1, 10 s elapsed), offsets
`(5, 7, 9)` are untouched by the tick. -/
theorem C8_icon_mode_preserves_offsets_witness :
    (loop_iter ⟨1, 0, 5, 7, 9, 0⟩
        ⟨10, none, none, none, none, none, 200, 50, 300⟩).1.offCPU = 5 ∧
    (loop_iter ⟨1, 0, 5, 7, 9, 0⟩
        ⟨10, none, none, none, none, none, 200, 50, 300⟩).1.offMem = 7 ∧
    (loop_iter ⟨1, 0, 5, 7, 9, 0⟩
        ⟨10, none, none, none, none, none, 200, 50, 300⟩).1.offDisk = 9 :=
  have h := C8_icon_mode_preserves_offsets ⟨1, 0, 5, 7, 9, 0⟩
    ⟨10, none, none, none, none, none, 200, 50, 300⟩ (by decide)
  ⟨h.1, h.2.1, h.2.2.1⟩

/-- One snapshot field is correct for its probe: the successfully fetched
value is kept, and a failed probe yields the literal placeholder `N/A`. -/
def field_ok (p : Option String) (f : String) : Prop :=
  (∀ v, p = some v → f = v) ∧ (p = none → f = "N/A")

theorem getD_field_ok (p : Option String) : field_ok p (p.getD "N/A") := by
  constructor
  · intro v hv; rw [hv]; rfl
  · intro hv; rw [hv]; rfl

/-- C9.  `fetch_metrics` is a total function (never raises): for every
combination of probe outcomes it returns a complete snapshot with all five
keys, where each field independently keeps its successfully fetched value or
is the literal placeholder `N/A` when its probe fails; in the `stats.py`
variant a failed CPU probe yields the prefixed placeholder `CPU: N/A` used
in the composed line. -/
theorem C9_metrics_never_raise (pIP pCPU pTemp pMem pDisk : Option String) :
    field_ok pIP (fetch_metrics pIP pCPU pTemp pMem pDisk).IP ∧
    field_ok pCPU (fetch_metrics pIP pCPU pTemp pMem pDisk).CPU ∧
    field_ok pTemp (fetch_metrics pIP pCPU pTemp pMem pDisk).Temp ∧
    field_ok pMem (fetch_metrics pIP pCPU pTemp pMem pDisk).Mem ∧
    field_ok pDisk (fetch_metrics pIP pCPU pTemp pMem pDisk).Disk ∧
    (pCPU = none → stats_CPU pCPU = "CPU: N/A") :=
  ⟨getD_field_ok pIP, getD_field_ok pCPU, getD_field_ok pTemp,
   getD_field_ok pMem, getD_field_ok pDisk,
   fun h => by rw [stats_CPU, h]; rfl⟩

/-- Witness for C9: with a failed CPU probe and successful IP probe, the
snapshot keeps the IP value, substitutes `N/A` for CPU, and the `stats.py`
composed-line placeholder is `CPU: N/A`. -/
theorem C9_metrics_never_raise_witness :
    (fetch_metrics (some "10.0.0.2") none (some "41.2 C") none
        (some "/dev/sda:3G(5%)")).IP = "10.0.0.2" ∧
    (fetch_metrics (some "10.0.0.2") none (some "41.2 C") none
        (some "/dev/sda:3G(5%)")).CPU = "N/A" ∧
    (fetch_metrics (some "10.0.0.2") none (some "41.2 C") none
        (some "/dev/sda:3G(5%)")).Mem = "N/A" ∧
    stats_CPU none = "CPU: N/A" :=
  have h := C9_metrics_never_raise (some "10.0.0.2") none (some "41.2 C")
    none (some "/dev/sda:3G(5%)")
  ⟨h.1.1 "10.0.0.2" rfl, h.2.1.2 rfl, h.2.2.2.1.2 rfl, h.2.2.2.2.2 rfl⟩

/-- C10.  In the `stats.py` variant, for `text_width > WIDTH` and a
non-negative incoming offset: an offset exceeding `text_width - WIDTH` is
reset to 0 before drawing, the returned offset always lies in
`[2, text_width - WIDTH + 2]`, and exactly one copy of the text is drawn
per frame (no second seamless copy). -/
theorem C10_stats_reset_bounded (y : Int) (text : String) (tw off : Int)
    (hw : WIDTH < tw) (hoff : 0 ≤ off) :
    (tw - WIDTH < off →
      draw_scrolling_text y text tw off = ([⟨0, y, text⟩], 2)) ∧
    (off ≤ tw - WIDTH →
      draw_scrolling_text y text tw off = ([⟨-off, y, text⟩], off + 2)) ∧
    2 ≤ (draw_scrolling_text y text tw off).2 ∧
    (draw_scrolling_text y text tw off).2 ≤ tw - WIDTH + 2 ∧
    (draw_scrolling_text y text tw off).1.length = 1 := by
  have hn : ¬ tw ≤ WIDTH := by omega
  rw [draw_scrolling_text, if_neg hn]
  by_cases hr : tw - WIDTH < off
  · have hgt : off > tw - WIDTH := hr
    refine ⟨fun _ => by simp [if_pos hgt], fun hle => by omega, ?_, ?_, ?_⟩
    · simp [if_pos hgt]
    · simp only [if_pos hgt, WIDTH] at *
      omega
    · simp [if_pos hgt]
  · have hng : ¬ off > tw - WIDTH := hr
    refine ⟨fun hgt => by omega, fun _ => by simp [if_neg hng], ?_, ?_, ?_⟩
    · simp only [if_neg hng]
      omega
    · simp only [if_neg hng, WIDTH] at *
      omega
    · simp [if_neg hng]

/-- Witness for C10: with `text_width = 200` an incoming offset `300 > 72`
is reset (draw at 0, return 2), and an incoming offset `50 ≤ 72` scrolls
(draw at `-50`, return `52 ≤ 74`), one copy each time. -/
theorem C10_stats_reset_bounded_witness :
    draw_scrolling_text 16 "T" 200 300 = ([⟨0, 16, "T"⟩], 2) ∧
    draw_scrolling_text 16 "T" 200 50 = ([⟨-50, 16, "T"⟩], 50 + 2) ∧
    (draw_scrolling_text 16 "T" 200 50).2 ≤ 200 - WIDTH + 2 ∧
    (draw_scrolling_text 16 "T" 200 50).1.length = 1 :=
  have h1 := C10_stats_reset_bounded 16 "T" 200 300 (by decide) (by decide)
  have h2 := C10_stats_reset_bounded 16 "T" 200 50 (by decide) (by decide)
  ⟨h1.1 (by decide), h2.2.1 (by decide), h2.2.2.2.1, h2.2.2.2.2⟩

end OLED
